import Mathlib

/-!
Shallow embedding of `src/cli.py` (ClauseCompass decision-engine CLI).

The source is a single-file Python REPL. We embed:
  * the mutable `APP_STATE` dictionary as the structure `AppState`;
  * console output as structured messages (`Msg`), since the renderer is an
    external collaborator; each `console.print` in the source becomes one
    `Event.print` with a constructor identifying that message;
  * HTTP and file-system effects as `Event`s in an emitted trace, with the
    environment (file system, network outcome, interactive input) passed in
    as an explicit `Env` record;
  * Python exceptions that may propagate out of a handler as `PyExc`;
  * `shlex.split` (POSIX mode, whitespace_split, as used by `shlex.split`)
    as the executable tokenizer `shlexSplit`, returning `Except Unit` since
    Python raises `ValueError` on an unclosed quote or trailing escape.

Each `handle_*` definition mirrors the Python function of the same name.
-/

namespace ClauseCompass

/-- Characters written via codepoints so the tokenizer is free of quote-literal
noise: single quote (39), double quote (34), backslash (92). -/
def chSQuote : Char := Char.ofNat 39

def chDQuote : Char := Char.ofNat 34

def chBackslash : Char := Char.ofNat 92

/-- Characters stripped by Python `str.strip()` with no argument. -/
def isPyWS (c : Char) : Bool :=
  c = Char.ofNat 32 || c = Char.ofNat 9 || c = Char.ofNat 10 ||
  c = Char.ofNat 13 || c = Char.ofNat 11 || c = Char.ofNat 12

/-- Python `str.strip()`. -/
def pyStrip (s : String) : String :=
  String.mk (((s.toList.dropWhile isPyWS).reverse.dropWhile isPyWS).reverse)

/-- ASCII lowering of one character, as Python `str.lower()` does on ASCII. -/
def pyLowerChar (c : Char) : Char :=
  if c.toNat ≥ 65 ∧ c.toNat ≤ 90 then Char.ofNat (c.toNat + 32) else c

/-- Python `str.lower()` (the source only ever lowers ASCII command words and
mode names). -/
def pyLower (s : String) : String :=
  String.mk (s.toList.map pyLowerChar)

/-- The `APP_STATE` dictionary from `src/cli.py` lines 17-23. -/
structure AppState where
  token : Option String
  user_email : Option String
  mode : String
  persistent_docs_context : List String
  temp_docs_to_upload : List String
deriving DecidableEq, Repr

/-- The initial `APP_STATE` value. -/
def initState : AppState :=
  { token := none
  , user_email := none
  , mode := "persistent"
  , persistent_docs_context := []
  , temp_docs_to_upload := [] }

/-- Python truthiness of the `token` entry (`if not APP_STATE["token"]`):
`None` and the empty string are falsy. -/
def tokenTruthy : Option String → Bool
  | none => false
  | some s => !s.isEmpty

/-- One constructor per distinct `console.print` call in the source; the rich
rendering itself is peripheral, only the identity and payload of each message
matter to the spec. -/
inductive Msg where
  | helpText
  | modeSwitched (m : String)
  | invalidMode
  | loginSuccess
  | loginFailed (detail : String)
  | connectionError
  | registerSuccess
  | registerFailed (detail : String)
  | loggedOut
  | persistentOnly
  | temporaryOnly
  | mustLoginFirst
  | noDocsInKB
  | docsTable (docs : List String)
  | fetchDocsError (detail : String)
  | contextCleared
  | contextSet (docs : List String)
  | usageAddDoc
  | stagedFile (p : String)
  | skippedDuplicate (p : String)
  | fileNotFound (p : String)
  | noDocsForMode
  | showDocsTable (docs : List String)
  | docsCleared
  | mustLoginQuery
  | noDocsStaged
  | serverError (status : Nat) (detail : String)
  | response (body : String)
  | exiting
deriving DecidableEq, Repr

/-- Observable effects emitted while a line of input is processed. A file
handle is identified by its position in the open sequence. -/
inductive Event where
  | print (m : Msg)
  | httpPost (path : String)
  | httpGet (path : String)
  | openFile (idx : Nat) (p : String)
  | closeFile (idx : Nat)
deriving DecidableEq, Repr

/-- Python exceptions that can escape a handler. -/
inductive PyExc where
  | requestException
  | osError (p : String)
  | valueError
  | systemExit
deriving DecidableEq, Repr

/-- Body of an HTTP response, pre-parsed: the fields the client reads. -/
structure HttpResponse where
  status : Nat
  access_token : String
  detail : Option String
  documents : List String
  body : String
deriving DecidableEq, Repr

/-- Outcome of one HTTP call: a response, or a
`requests.exceptions.RequestException` (transport failure). -/
inductive NetResult where
  | resp (r : HttpResponse)
  | connError
deriving DecidableEq, Repr

/-- The environment a single REPL iteration runs in: file-system predicates,
`os.path.abspath`, whether `open(p, rb)` succeeds at upload time, the network
outcome of the (at most one) HTTP call, and the interactive login email. -/
structure Env where
  fs_exists : String → Bool
  fs_isfile : String → Bool
  abspath : String → String
  openOk : String → Bool
  net : NetResult
  inputEmail : String

/-- Result of running one handler: the new state, the emitted trace, and the
exception escaping the handler, if any. -/
structure HandlerResult where
  st : AppState
  out : List Event
  exc : Option PyExc
deriving DecidableEq, Repr

/-! ### shlex.split (POSIX mode) -/

/-- Whitespace as `shlex` sees it. -/
def isShlexWS (c : Char) : Bool :=
  c = ' ' || c = Char.ofNat 9 || c = Char.ofNat 13 || c = Char.ofNat 10

/-- Tokenizer state: between tokens, inside a word, inside single quotes,
inside double quotes, after an escape outside quotes, after an escape inside
double quotes. -/
inductive SState where
  | ws
  | word
  | squote
  | dquote
  | escWord
  | escDQuote
deriving DecidableEq, Repr

/-- Core of CPython `shlex.read_token` in POSIX mode with `whitespace_split`:
`tok` is the token built so far, `quoted` records whether it contained a
quoted section (so an empty quoted token is still emitted), `acc` the tokens
already emitted. An unclosed quote or trailing escape raises `ValueError`. -/
def shlexCore : List Char → SState → List Char → Bool → List String →
    Except Unit (List String)
  | [], st, tok, quoted, acc =>
    match st with
    | .squote | .dquote | .escWord | .escDQuote => .error ()
    | _ => if tok ≠ [] || quoted then .ok (acc ++ [String.mk tok]) else .ok acc
  | c :: rest, st, tok, quoted, acc =>
    match st with
    | .ws =>
      if isShlexWS c then shlexCore rest .ws [] false acc
      else if c = chSQuote then shlexCore rest .squote tok true acc
      else if c = chDQuote then shlexCore rest .dquote tok true acc
      else if c = chBackslash then shlexCore rest .escWord tok quoted acc
      else shlexCore rest .word (tok ++ [c]) quoted acc
    | .word =>
      if isShlexWS c then
        shlexCore rest .ws [] false
          (if tok ≠ [] || quoted then acc ++ [String.mk tok] else acc)
      else if c = chSQuote then shlexCore rest .squote tok true acc
      else if c = chDQuote then shlexCore rest .dquote tok true acc
      else if c = chBackslash then shlexCore rest .escWord tok quoted acc
      else shlexCore rest .word (tok ++ [c]) quoted acc
    | .squote =>
      if c = chSQuote then shlexCore rest .word tok quoted acc
      else shlexCore rest .squote (tok ++ [c]) quoted acc
    | .dquote =>
      if c = chDQuote then shlexCore rest .word tok quoted acc
      else if c = chBackslash then shlexCore rest .escDQuote tok quoted acc
      else shlexCore rest .dquote (tok ++ [c]) quoted acc
    | .escWord => shlexCore rest .word (tok ++ [c]) quoted acc
    | .escDQuote =>
      if c = chDQuote || c = chBackslash then
        shlexCore rest .dquote (tok ++ [c]) quoted acc
      else shlexCore rest .dquote (tok ++ [chBackslash, c]) quoted acc

/-- Python `shlex.split` on a whole string; `Except.error ()` models the `ValueError` Python raises
on malformed input. -/
def shlexSplit (s : String) : Except Unit (List String) :=
  shlexCore s.toList .ws [] false []

/-! ### Command handlers -/

/-- Handler `handle_help`. -/
def handle_help (_args_str : String) (s : AppState) : HandlerResult :=
  ⟨s, [.print .helpText], none⟩

/-- Handler `handle_mode_switch` (lines 58-67). -/
def handle_mode_switch (args_str : String) (s : AppState) : HandlerResult :=
  let new_mode := pyLower (pyStrip args_str)
  if new_mode = "persistent" ∨ new_mode = "temporary" then
    ⟨{ s with mode := new_mode
            , persistent_docs_context := []
            , temp_docs_to_upload := [] }
    , [.print (.modeSwitched new_mode)], none⟩
  else
    ⟨s, [.print .invalidMode], none⟩

/-- Handler `handle_login` (lines 69-80): the whole call is inside
`try/except RequestException`, so a transport failure prints a connection
error and returns normally. State changes only on status 200. -/
def handle_login (env : Env) (_args_str : String) (s : AppState) :
    HandlerResult :=
  match env.net with
  | .connError => ⟨s, [.httpPost "/login", .print .connectionError], none⟩
  | .resp r =>
    if r.status = 200 then
      ⟨{ s with token := some r.access_token
              , user_email := some env.inputEmail }
      , [.httpPost "/login", .print .loginSuccess], none⟩
    else
      ⟨s, [.httpPost "/login"
          , .print (.loginFailed (r.detail.getD "Invalid credentials"))], none⟩

/-- Handler `handle_register` (lines 82-88): the `requests.post` call is NOT wrapped
in any `try`, so a transport failure propagates as an uncaught
`RequestException`. -/
def handle_register (env : Env) (_args_str : String) (s : AppState) :
    HandlerResult :=
  match env.net with
  | .connError => ⟨s, [.httpPost "/register"], some .requestException⟩
  | .resp r =>
    if r.status = 200 then
      ⟨s, [.httpPost "/register", .print .registerSuccess], none⟩
    else
      ⟨s, [.httpPost "/register"
          , .print (.registerFailed (r.detail.getD "Unknown error"))], none⟩

/-- Handler `handle_logout` (lines 90-92). -/
def handle_logout (_args_str : String) (s : AppState) : HandlerResult :=
  ⟨{ s with token := none
          , user_email := none
          , persistent_docs_context := []
          , temp_docs_to_upload := [] }
  , [.print .loggedOut], none⟩

/-- Handler `handle_list_docs` (lines 94-105): mode and login guards first; the
`requests.get` is NOT wrapped in a `try`, so a transport failure propagates. -/
def handle_list_docs (env : Env) (_args_str : String) (s : AppState) :
    HandlerResult :=
  if s.mode ≠ "persistent" then ⟨s, [.print .persistentOnly], none⟩
  else if !tokenTruthy s.token then ⟨s, [.print .mustLoginFirst], none⟩
  else
    match env.net with
    | .connError => ⟨s, [.httpGet "/documents"], some .requestException⟩
    | .resp r =>
      if r.status = 200 then
        if r.documents = [] then
          ⟨s, [.httpGet "/documents", .print .noDocsInKB], none⟩
        else
          ⟨s, [.httpGet "/documents"
              , .print (.docsTable (r.documents.mergeSort
                  (fun a b => decide (a ≤ b))))], none⟩
      else
        ⟨s, [.httpGet "/documents"
            , .print (.fetchDocsError (r.detail.getD "Unknown error"))], none⟩

/-- Handler `handle_set_docs` (lines 107-111): `shlex.split` may raise `ValueError`,
which nothing catches. -/
def handle_set_docs (args_str : String) (s : AppState) : HandlerResult :=
  if s.mode ≠ "persistent" then ⟨s, [.print .persistentOnly], none⟩
  else if args_str = "" ∨ pyStrip args_str = "*" then
    ⟨{ s with persistent_docs_context := [] }, [.print .contextCleared], none⟩
  else
    match shlexSplit args_str with
    | .error _ => ⟨s, [], some .valueError⟩
    | .ok toks =>
      ⟨{ s with persistent_docs_context := toks }
      , [.print (.contextSet toks)], none⟩

/-- The per-path loop of `handle_add_doc` (lines 117-122): returns the final
staged list and the trace of per-path messages, in argument order. -/
def addDocsLoop (env : Env) (paths : List String) (staged : List String) :
    List String × List Event :=
  match paths with
  | [] => (staged, [])
  | p :: ps =>
    if env.fs_exists p && env.fs_isfile p then
      if env.abspath p ∈ staged then
        ((addDocsLoop env ps staged).1,
         .print (.skippedDuplicate (env.abspath p)) ::
           (addDocsLoop env ps staged).2)
      else
        ((addDocsLoop env ps (staged ++ [env.abspath p])).1,
         .print (.stagedFile (env.abspath p)) ::
           (addDocsLoop env ps (staged ++ [env.abspath p])).2)
    else
      ((addDocsLoop env ps staged).1,
       .print (.fileNotFound p) :: (addDocsLoop env ps staged).2)

/-- Handler `handle_add_doc` (lines 113-122): mode guard, usage guard, `shlex.split`
(uncaught `ValueError` on malformed input), then the per-path loop. -/
def handle_add_doc (env : Env) (args_str : String) (s : AppState) :
    HandlerResult :=
  if s.mode ≠ "temporary" then ⟨s, [.print .temporaryOnly], none⟩
  else if args_str = "" then ⟨s, [.print .usageAddDoc], none⟩
  else
    match shlexSplit args_str with
    | .error _ => ⟨s, [], some .valueError⟩
    | .ok files_to_add =>
      let r := addDocsLoop env files_to_add s.temp_docs_to_upload
      ⟨{ s with temp_docs_to_upload := r.1 }, r.2, none⟩

/-- Handler `handle_show_docs` (lines 124-137): reads the collection of the current
mode; never mutates. -/
def handle_show_docs (_args_str : String) (s : AppState) : HandlerResult :=
  let docs_list :=
    if s.mode = "persistent" then s.persistent_docs_context
    else s.temp_docs_to_upload
  if docs_list = [] then ⟨s, [.print .noDocsForMode], none⟩
  else ⟨s, [.print (.showDocsTable docs_list)], none⟩

/-- Handler `handle_clear_docs` (lines 139-142): clears the collection of the current
mode. -/
def handle_clear_docs (_args_str : String) (s : AppState) : HandlerResult :=
  if s.mode = "persistent" then
    ⟨{ s with persistent_docs_context := [] }, [.print .docsCleared], none⟩
  else
    ⟨{ s with temp_docs_to_upload := [] }, [.print .docsCleared], none⟩

/-- Handler `handle_persistent_query` (lines 152-161): the whole call sits inside
`try/except RequestException`, so a transport failure prints a connection
error and returns normally. -/
def handle_persistent_query (env : Env) (_query : String) (s : AppState) :
    HandlerResult :=
  match env.net with
  | .connError =>
    ⟨s, [.httpPost "/evaluate", .print .connectionError], none⟩
  | .resp r =>
    if r.status = 200 then
      ⟨s, [.httpPost "/evaluate", .print (.response r.body)], none⟩
    else
      ⟨s, [.httpPost "/evaluate"
          , .print (.serverError r.status (r.detail.getD "Unknown error"))]
      , none⟩

/-- The open loop of `handle_temporary_query` (lines 170-172): returns the
open events and handle indices for the successfully opened prefix, and the
first path whose `open` raised `OSError`, if any. -/
def openAll (env : Env) (paths : List String) (i : Nat) :
    List Event × List Nat × Option String :=
  match paths with
  | [] => ([], [], none)
  | p :: ps =>
    if env.openOk p then
      (.openFile i p :: (openAll env ps (i + 1)).1,
       i :: (openAll env ps (i + 1)).2.1,
       (openAll env ps (i + 1)).2.2)
    else ([], [], some p)

/-- Handler `handle_temporary_query` (lines 163-181): empty-staging guard; the open
loop and the HTTP call sit in a `try` whose `except` catches only
`RequestException`, with a `finally` closing every handle in `file_handles`.
An `OSError` from `open` therefore escapes after all opened handles are
closed, and no request is sent. -/
def handle_temporary_query (env : Env) (_query : String) (s : AppState) :
    HandlerResult :=
  if s.temp_docs_to_upload = [] then ⟨s, [.print .noDocsStaged], none⟩
  else
    match openAll env s.temp_docs_to_upload 0 with
    | (openEvs, handles, some p) =>
      ⟨s, openEvs ++ handles.map Event.closeFile, some (.osError p)⟩
    | (openEvs, handles, none) =>
      match env.net with
      | .connError =>
        ⟨s, openEvs ++ [.httpPost "/evaluate-with-docs"
            , .print .connectionError] ++ handles.map Event.closeFile, none⟩
      | .resp r =>
        if r.status = 200 then
          ⟨s, openEvs ++ [.httpPost "/evaluate-with-docs"
              , .print (.response r.body)] ++ handles.map Event.closeFile
          , none⟩
        else
          ⟨s, openEvs ++ [.httpPost "/evaluate-with-docs"
              , .print (.serverError r.status (r.detail.getD "Unknown error"))]
              ++ handles.map Event.closeFile, none⟩

/-- Handler `handle_query` (lines 144-150): login guard, then route on mode. -/
def handle_query (env : Env) (query_text : String) (s : AppState) :
    HandlerResult :=
  if !tokenTruthy s.token then ⟨s, [.print .mustLoginQuery], none⟩
  else if s.mode = "persistent" then handle_persistent_query env query_text s
  else handle_temporary_query env query_text s

/-! ### Command registry and REPL loop -/

/-- The keys of `COMMANDS` (lines 190-196). -/
def commandNames : List String :=
  ["help", "mode", "register", "login", "logout", "list_docs", "set_docs",
   "add_doc", "show_docs", "clear_docs", "exit", "quit"]

/-- Dispatch on a registered command name (`COMMANDS[command](args)`).
`exit` and `quit` call `exit()`, raising `SystemExit`. -/
def runCommand (env : Env) (command args : String) (s : AppState) :
    HandlerResult :=
  if command = "help" then handle_help args s
  else if command = "mode" then handle_mode_switch args s
  else if command = "register" then handle_register env args s
  else if command = "login" then handle_login env args s
  else if command = "logout" then handle_logout args s
  else if command = "list_docs" then handle_list_docs env args s
  else if command = "set_docs" then handle_set_docs args s
  else if command = "add_doc" then handle_add_doc env args s
  else if command = "show_docs" then handle_show_docs args s
  else if command = "clear_docs" then handle_clear_docs args s
  else ⟨s, [], some .systemExit⟩

/-- Python `user_input.split(chr(32), 1)` on a list of characters. -/
def splitFirstSpaceAux : List Char → List Char × List Char
  | [] => ([], [])
  | c :: cs =>
    if c = ' ' then ([], cs)
    else
      let r := splitFirstSpaceAux cs
      (c :: r.1, r.2)

/-- Python `user_input.split(chr(32), 1)`: first token and remainder (line 216-218);
when there is no space the remainder is the empty string. -/
def splitFirstSpace (s : String) : String × String :=
  let r := splitFirstSpaceAux s.toList
  (String.mk r.1, String.mk r.2)

/-- One REPL read: either a line, or a `KeyboardInterrupt`/`EOFError` at the
prompt. -/
inductive InputEvent where
  | line (raw : String)
  | interrupt
deriving DecidableEq, Repr

/-- Result of one iteration of `main`s `while True` loop: continue, break
gracefully (the `except (KeyboardInterrupt, EOFError, SystemExit)` path), or
die with an uncaught exception (traceback, abnormal process termination). -/
inductive StepResult where
  | cont (s : AppState) (out : List Event)
  | exited (s : AppState) (out : List Event)
  | crashed (s : AppState) (out : List Event) (e : PyExc)
deriving DecidableEq, Repr

/-- The `try/except (KeyboardInterrupt, EOFError, SystemExit)` wrapper around
one dispatched handler call: `SystemExit` is caught and breaks the loop with
the shutdown message; any other escaping exception is uncaught (abnormal
termination with a traceback). -/
def finishStep (r : HandlerResult) : StepResult :=
  match r.exc with
  | none => .cont r.st r.out
  | some .systemExit => .exited r.st (r.out ++ [.print .exiting])
  | some e => .crashed r.st r.out e

/-- One iteration of `main` (lines 212-222): strip, skip blank lines, split
off the first space-delimited token, lowercase it, dispatch to `COMMANDS` or
fall through to `handle_query` with the UNMODIFIED stripped line. -/
def loopStep (env : Env) (s : AppState) (inp : InputEvent) : StepResult :=
  match inp with
  | .interrupt => .exited s [.print .exiting]
  | .line raw =>
    let user_input := pyStrip raw
    if user_input = "" then .cont s []
    else
      let parts := splitFirstSpace user_input
      let command := pyLower parts.1
      if command ∈ commandNames then
        finishStep (runCommand env command parts.2 s)
      else
        finishStep (handle_query env user_input s)

/-- The state a `StepResult` leaves behind. -/
def StepResult.state : StepResult → AppState
  | .cont s _ => s
  | .exited s _ => s
  | .crashed s _ _ => s

/-- States reachable from the initial `APP_STATE` by iterating the REPL loop
under arbitrary environments and inputs. -/
inductive Reachable : AppState → Prop where
  | init : Reachable initState
  | step (env : Env) (inp : InputEvent) {s : AppState} :
      Reachable s → Reachable (loopStep env s inp).state

/-! ### Concrete fixtures used by witnesses and counterexamples -/

/-- A file system where only `/a.pdf` and `/b.pdf` exist (regular files),
`abspath` is the identity (paths already absolute), `open` succeeds only for
`/a.pdf`, and the network is down. -/
def envFS : Env :=
  { fs_exists := fun p => p = "/a.pdf" || p = "/b.pdf"
  , fs_isfile := fun p => p = "/a.pdf" || p = "/b.pdf"
  , abspath := fun p => p
  , openOk := fun p => p = "/a.pdf"
  , net := .connError
  , inputEmail := "user@example.com" }

/-- An environment where every `open` at upload time fails (the staged file
vanished between staging and sending) while the backend itself is healthy. -/
def envOpenFail : Env :=
  { fs_exists := fun _ => true
  , fs_isfile := fun _ => true
  , abspath := fun p => p
  , openOk := fun _ => false
  , net := .resp { status := 200, access_token := "t", detail := none
                 , documents := [], body := "ok" }
  , inputEmail := "user@example.com" }

/-- Authenticated session in persistent mode, no context. -/
def stPers : AppState :=
  { token := some "tok", user_email := some "user", mode := "persistent"
  , persistent_docs_context := [], temp_docs_to_upload := [] }

/-- Authenticated persistent-mode session with both collections nonempty
(to exercise the unconditional clearing). -/
def stPersCtx : AppState :=
  { stPers with persistent_docs_context := ["x.pdf"]
              , temp_docs_to_upload := ["/y.pdf"] }

/-- Authenticated session in temporary mode, nothing staged. -/
def stTemp : AppState :=
  { stPers with mode := "temporary" }

/-- Temporary-mode session with one staged file. -/
def stTempStaged : AppState :=
  { stTemp with temp_docs_to_upload := ["/gone.pdf"] }

/-- Temporary-mode session with two staged files. -/
def stTempTwo : AppState :=
  { stTemp with temp_docs_to_upload := ["/a.pdf", "/b.pdf"] }

/-! ### C2: mode switching -/

/-- Claim C2: for every session state and every argument string to the
mode-switch command, a trimmed lowercased argument equal to "persistent" or
"temporary" sets the mode and empties both document collections regardless of
their prior contents; any other argument reports an invalid-mode error and
leaves the entire session state unchanged. -/
theorem c2_mode_switch (args_str : String) (s : AppState) :
    (pyLower (pyStrip args_str) = "persistent" ∨
     pyLower (pyStrip args_str) = "temporary" →
      handle_mode_switch args_str s =
        ⟨{ s with mode := pyLower (pyStrip args_str)
                , persistent_docs_context := []
                , temp_docs_to_upload := [] },
         [.print (.modeSwitched (pyLower (pyStrip args_str)))], none⟩) ∧
    (¬(pyLower (pyStrip args_str) = "persistent" ∨
       pyLower (pyStrip args_str) = "temporary") →
      handle_mode_switch args_str s = ⟨s, [.print .invalidMode], none⟩) := by
  constructor
  · intro h
    simp only [handle_mode_switch, if_pos h]
  · intro h
    simp only [handle_mode_switch, if_neg h]

/-- Witness for C2 at the argument " TEMPORARY " (valid after trimming and
lowering, clears the populated collections) and at "bogus" (invalid, state
unchanged). -/
theorem c2_mode_switch_witness :
    pyLower (pyStrip " TEMPORARY ") = "temporary" ∧
    handle_mode_switch " TEMPORARY " stPersCtx =
      ⟨{ stPersCtx with mode := pyLower (pyStrip " TEMPORARY ")
                      , persistent_docs_context := []
                      , temp_docs_to_upload := [] },
       [.print (.modeSwitched (pyLower (pyStrip " TEMPORARY ")))], none⟩ ∧
    handle_mode_switch "bogus" stPersCtx =
      ⟨stPersCtx, [.print .invalidMode], none⟩ :=
  ⟨by decide,
   (c2_mode_switch " TEMPORARY " stPersCtx).1 (Or.inr (by decide)),
   (c2_mode_switch "bogus" stPersCtx).2 (by decide)⟩

/-! ### C3: mode-scoped command legality -/

/-- Claim C3: `list_docs` and `set_docs` invoked in Temporary mode, and
`add_doc` invoked in Persistent mode, report a mode-mismatch error and leave
the session unchanged; `show_docs` and `clear_docs` instead operate on the
collection of the current mode. -/
theorem c3_mode_guards (env : Env) (args_str : String) (s : AppState) :
    (s.mode = "temporary" →
      handle_list_docs env args_str s = ⟨s, [.print .persistentOnly], none⟩ ∧
      handle_set_docs args_str s = ⟨s, [.print .persistentOnly], none⟩) ∧
    (s.mode = "persistent" →
      handle_add_doc env args_str s = ⟨s, [.print .temporaryOnly], none⟩) ∧
    (s.mode = "persistent" →
      handle_show_docs args_str s =
        (if s.persistent_docs_context = [] then
          ⟨s, [.print .noDocsForMode], none⟩
         else ⟨s, [.print (.showDocsTable s.persistent_docs_context)], none⟩) ∧
      handle_clear_docs args_str s =
        ⟨{ s with persistent_docs_context := [] }, [.print .docsCleared], none⟩) ∧
    (s.mode = "temporary" →
      handle_show_docs args_str s =
        (if s.temp_docs_to_upload = [] then ⟨s, [.print .noDocsForMode], none⟩
         else ⟨s, [.print (.showDocsTable s.temp_docs_to_upload)], none⟩) ∧
      handle_clear_docs args_str s =
        ⟨{ s with temp_docs_to_upload := [] }, [.print .docsCleared], none⟩) := by
  refine ⟨fun hm => ⟨?_, ?_⟩, fun hm => ?_, fun hm => ⟨?_, ?_⟩,
    fun hm => ⟨?_, ?_⟩⟩ <;>
    simp [handle_list_docs, handle_set_docs, handle_add_doc,
      handle_show_docs, handle_clear_docs, hm]

/-- Witness for C3: the wrong-mode guards and the mode-polymorphic commands
evaluated in a temporary-mode session with one staged file and in a
persistent-mode session with one context entry. -/
theorem c3_mode_guards_witness :
    handle_list_docs envFS "" stTempStaged =
      ⟨stTempStaged, [.print .persistentOnly], none⟩ ∧
    handle_set_docs "x.pdf" stTempStaged =
      ⟨stTempStaged, [.print .persistentOnly], none⟩ ∧
    handle_add_doc envFS "/a.pdf" stPersCtx =
      ⟨stPersCtx, [.print .temporaryOnly], none⟩ ∧
    handle_show_docs "" stTempStaged =
      ⟨stTempStaged, [.print (.showDocsTable ["/gone.pdf"])], none⟩ ∧
    handle_clear_docs "" stPersCtx =
      ⟨{ stPersCtx with persistent_docs_context := [] },
       [.print .docsCleared], none⟩ :=
  ⟨((c3_mode_guards envFS "" stTempStaged).1 rfl).1,
   ((c3_mode_guards envFS "x.pdf" stTempStaged).1 rfl).2,
   (c3_mode_guards envFS "/a.pdf" stPersCtx).2.1 rfl,
   (((c3_mode_guards envFS "" stTempStaged).2.2.2 rfl).1).trans (by decide),
   ((c3_mode_guards envFS "" stPersCtx).2.2.1 rfl).2⟩

/-! ### C6: setContext -/

/-- Claim C6 (amended): in Persistent mode an empty argument or a trimmed
literal "*" clears `persistentDocsContext`; any other argument on which
shell-like word-splitting succeeds replaces the context with the resulting
tokens (quoted substrings are single tokens, so the example argument yields
exactly "a b.pdf" and "c.pdf" in order); an argument on which the splitting
fails (unclosed quote or trailing escape) leaves the context unchanged and
raises an uncaught ValueError. -/
theorem c6_set_docs (args_str : String) (s : AppState)
    (hm : s.mode = "persistent") :
    ((args_str = "" ∨ pyStrip args_str = "*") →
      handle_set_docs args_str s =
        ⟨{ s with persistent_docs_context := [] },
         [.print .contextCleared], none⟩) ∧
    (∀ toks, shlexSplit args_str = .ok toks →
      ¬(args_str = "" ∨ pyStrip args_str = "*") →
      handle_set_docs args_str s =
        ⟨{ s with persistent_docs_context := toks },
         [.print (.contextSet toks)], none⟩) ∧
    (shlexSplit args_str = .error () →
      ¬(args_str = "" ∨ pyStrip args_str = "*") →
      handle_set_docs args_str s = ⟨s, [], some .valueError⟩) ∧
    shlexSplit "\"a b.pdf\" c.pdf" = .ok ["a b.pdf", "c.pdf"] := by
  refine ⟨fun h => ?_, fun toks hok h => ?_, fun herr h => ?_, rfl⟩
  · simp [handle_set_docs, hm, h]
  · simp [handle_set_docs, hm, h, hok]
  · simp [handle_set_docs, hm, h, herr]

/-- Witness for C6 (amended): the quoted example argument replaces the
context with exactly two entries, and "*" clears a populated context. -/
theorem c6_set_docs_witness :
    handle_set_docs "\"a b.pdf\" c.pdf" stPersCtx =
      ⟨{ stPersCtx with persistent_docs_context := ["a b.pdf", "c.pdf"] },
       [.print (.contextSet ["a b.pdf", "c.pdf"])], none⟩ ∧
    handle_set_docs "*" stPersCtx =
      ⟨{ stPersCtx with persistent_docs_context := [] },
       [.print .contextCleared], none⟩ :=
  ⟨(c6_set_docs "\"a b.pdf\" c.pdf" stPersCtx rfl).2.1
      ["a b.pdf", "c.pdf"] rfl (by decide),
   (c6_set_docs "*" stPersCtx rfl).1 (Or.inr (by decide))⟩

/-- Counterexample for C6 as stated: on the argument consisting of a double
quote followed by "a" (an unclosed quote), shell-like word-splitting has no
result: the handler does not replace the context with any token list, it
leaves the state unchanged and an uncaught ValueError escapes. -/
theorem c6_set_docs_cex :
    ¬("\"a" = "" ∨ pyStrip "\"a" = "*") ∧
    shlexSplit "\"a" = .error () ∧
    handle_set_docs "\"a" stPers = ⟨stPers, [], some .valueError⟩ ∧
    ¬∃ toks, shlexSplit "\"a" = Except.ok toks ∧
      (handle_set_docs "\"a" stPers).st.persistent_docs_context = toks := by
  refine ⟨by decide, rfl, rfl, ?_⟩
  rintro ⟨toks, htoks, -⟩
  rw [show shlexSplit "\"a" = Except.error () from rfl] at htoks
  exact Except.noConfusion htoks

/-! ### C4 and C5: the staging loop -/

/-- The staged collection only grows: anything staged before a call is still
staged after it. -/
theorem addDocsLoop_mem (env : Env) (paths : List String) :
    ∀ staged x, x ∈ staged → x ∈ (addDocsLoop env paths staged).1 := by
  induction paths with
  | nil => intro staged x hx; simpa [addDocsLoop] using hx
  | cons p ps ih =>
    intro staged x hx
    simp only [addDocsLoop]
    split
    · split
      · exact ih staged x hx
      · exact ih _ x (List.mem_append_left _ hx)
    · exact ih staged x hx

/-- After a call, the absolute form of every argument that is an existing
regular file is staged. -/
theorem addDocsLoop_adds (env : Env) (paths : List String) :
    ∀ staged p, p ∈ paths → (env.fs_exists p && env.fs_isfile p) = true →
      env.abspath p ∈ (addDocsLoop env paths staged).1 := by
  induction paths with
  | nil => intro _ p hp _; simp at hp
  | cons q ps ih =>
    intro staged p hp hfile
    rcases List.mem_cons.mp hp with h | h
    · subst h
      simp only [addDocsLoop, hfile, if_true]
      split
      · exact addDocsLoop_mem env ps staged _ (by assumption)
      · exact addDocsLoop_mem env ps _ _
          (List.mem_append_right _ (List.mem_singleton.mpr rfl))
    · simp only [addDocsLoop]
      split
      · split
        · exact ih staged p h hfile
        · exact ih _ p h hfile
      · exact ih staged p h hfile

/-- A call whose arguments all are existing regular files already staged in
absolute form changes nothing and reports one duplicate skip per argument. -/
theorem addDocsLoop_skips (env : Env) (paths : List String) :
    ∀ staged,
      (∀ p ∈ paths, (env.fs_exists p && env.fs_isfile p) = true ∧
        env.abspath p ∈ staged) →
      addDocsLoop env paths staged =
        (staged, paths.map fun p => .print (.skippedDuplicate (env.abspath p))) := by
  induction paths with
  | nil => intro staged _; simp [addDocsLoop]
  | cons p ps ih =>
    intro staged h
    have hp := h p (List.mem_cons_self p ps)
    simp only [addDocsLoop, hp.1, if_true, if_pos hp.2,
      ih staged (fun q hq => h q (List.mem_cons_of_mem p hq)), List.map_cons]

/-- The staging loop preserves freedom from duplicates. -/
theorem addDocsLoop_nodup (env : Env) (paths : List String) :
    ∀ staged, staged.Nodup → (addDocsLoop env paths staged).1.Nodup := by
  induction paths with
  | nil => intro staged h; simpa [addDocsLoop] using h
  | cons p ps ih =>
    intro staged h
    simp only [addDocsLoop]
    split
    · split
      · exact ih staged h
      · refine ih _ ?_
        simp only [List.nodup_append, List.nodup_cons, List.nodup_nil]
        exact ⟨h, by simp, by simpa using (by assumption : ¬env.abspath p ∈ staged)⟩
    · exact ih staged h

/-- Any sequence of staging calls starting from a duplicate-free collection
yields a duplicate-free collection. -/
theorem addDocsLoop_foldl_nodup (env : Env) (argss : List (List String)) :
    ∀ staged, staged.Nodup →
      (argss.foldl (fun st args => (addDocsLoop env args st).1) staged).Nodup := by
  induction argss with
  | nil => intro staged h; simpa using h
  | cons a as ih =>
    intro staged h
    exact ih _ (addDocsLoop_nodup env a staged h)

/-- Claim C4: in Temporary mode, the paths obtained by word-splitting the
argument are processed in order: a path that does not exist or is not a
regular file yields only a per-path error and leaves the staged collection
untouched for that path, without aborting the remaining paths; an existing
regular file not yet staged in absolute form is appended with a staged
report; one already staged yields a skipped-as-duplicate report and no
change. -/
theorem c4_add_doc (env : Env) (args_str : String) (s : AppState)
    (staged : List String) (p : String) (ps paths : List String) :
    (s.mode = "temporary" → args_str ≠ "" → shlexSplit args_str = .ok paths →
      handle_add_doc env args_str s =
        ⟨{ s with temp_docs_to_upload :=
             (addDocsLoop env paths s.temp_docs_to_upload).1 },
         (addDocsLoop env paths s.temp_docs_to_upload).2, none⟩) ∧
    ((env.fs_exists p && env.fs_isfile p) = false →
      addDocsLoop env (p :: ps) staged =
        ((addDocsLoop env ps staged).1,
         .print (.fileNotFound p) :: (addDocsLoop env ps staged).2)) ∧
    ((env.fs_exists p && env.fs_isfile p) = true → env.abspath p ∉ staged →
      addDocsLoop env (p :: ps) staged =
        ((addDocsLoop env ps (staged ++ [env.abspath p])).1,
         .print (.stagedFile (env.abspath p)) ::
           (addDocsLoop env ps (staged ++ [env.abspath p])).2)) ∧
    ((env.fs_exists p && env.fs_isfile p) = true → env.abspath p ∈ staged →
      addDocsLoop env (p :: ps) staged =
        ((addDocsLoop env ps staged).1,
         .print (.skippedDuplicate (env.abspath p)) ::
           (addDocsLoop env ps staged).2)) := by
  refine ⟨fun hm hne hok => ?_, fun hfile => ?_, fun hfile habs => ?_,
    fun hfile habs => ?_⟩
  · simp [handle_add_doc, hm, hne, hok]
  · simp [addDocsLoop, hfile]
  · simp [addDocsLoop, hfile, habs]
  · simp [addDocsLoop, hfile, habs]

/-- Witness for C4: `add_doc` on one existing file, one missing file and a
repeat of the first, starting from an empty staged collection. -/
theorem c4_add_doc_witness :
    handle_add_doc envFS "/a.pdf /nope.pdf /a.pdf" stTemp =
      ⟨{ stTemp with temp_docs_to_upload := ["/a.pdf"] },
       [.print (.stagedFile "/a.pdf"), .print (.fileNotFound "/nope.pdf"),
        .print (.skippedDuplicate "/a.pdf")], none⟩ :=
  ((c4_add_doc envFS "/a.pdf /nope.pdf /a.pdf" stTemp [] "" []
      ["/a.pdf", "/nope.pdf", "/a.pdf"]).1 rfl (by decide) rfl).trans (by decide)

/-- Claim C5: staging is idempotent: after a call on existing regular files,
repeating the identical call leaves the staged collection unchanged and
reports one duplicate skip per argument; a single call preserves freedom from
duplicates, and any sequence of calls starting from the empty collection
leaves no duplicate absolute paths. -/
theorem c5_add_doc_idempotent (env : Env) (paths : List String)
    (staged : List String)
    (h : ∀ p ∈ paths, (env.fs_exists p && env.fs_isfile p) = true) :
    addDocsLoop env paths (addDocsLoop env paths staged).1 =
      ((addDocsLoop env paths staged).1,
       paths.map fun p => .print (.skippedDuplicate (env.abspath p))) ∧
    (staged.Nodup → (addDocsLoop env paths staged).1.Nodup) ∧
    ∀ argss : List (List String),
      (argss.foldl (fun st args => (addDocsLoop env args st).1) []).Nodup := by
  refine ⟨?_, addDocsLoop_nodup env paths staged, fun argss =>
    addDocsLoop_foldl_nodup env argss [] List.nodup_nil⟩
  exact addDocsLoop_skips env paths _ fun p hp =>
    ⟨h p hp, addDocsLoop_adds env paths staged p hp (h p hp)⟩

/-- Witness for C5: staging `/a.pdf` and `/b.pdf` twice from an empty
collection: the second call changes nothing and reports two duplicate skips,
and the result is duplicate-free. -/
theorem c5_add_doc_idempotent_witness :
    (∀ p ∈ ["/a.pdf", "/b.pdf"],
      (envFS.fs_exists p && envFS.fs_isfile p) = true) ∧
    addDocsLoop envFS ["/a.pdf", "/b.pdf"]
        (addDocsLoop envFS ["/a.pdf", "/b.pdf"] []).1 =
      ((addDocsLoop envFS ["/a.pdf", "/b.pdf"] []).1,
       [.print (.skippedDuplicate "/a.pdf"),
        .print (.skippedDuplicate "/b.pdf")]) ∧
    (addDocsLoop envFS ["/a.pdf", "/b.pdf"] []).1.Nodup := by
  have h := c5_add_doc_idempotent envFS ["/a.pdf", "/b.pdf"] [] (by decide)
  exact ⟨by decide, h.1.trans (by decide), h.2.1 List.nodup_nil⟩

/-! ### C1: query guards -/

/-- Claim C1: for a line whose first token matches no registered command,
an unauthenticated session gets an authentication-required error with no
network call and unchanged state; an authenticated Temporary-mode session
with nothing staged gets a no-documents-staged error with no network call and
unchanged state. -/
theorem c1_query_guards (env : Env) (s : AppState) (raw : String)
    (hne : pyStrip raw ≠ "")
    (hcmd : pyLower (splitFirstSpace (pyStrip raw)).1 ∉ commandNames) :
    (s.token = none →
      loopStep env s (.line raw) = .cont s [.print .mustLoginQuery]) ∧
    (tokenTruthy s.token = true → s.mode = "temporary" →
      s.temp_docs_to_upload = [] →
      loopStep env s (.line raw) = .cont s [.print .noDocsStaged]) := by
  constructor
  · intro htok
    simp [loopStep, hne, hcmd, handle_query, htok, tokenTruthy, finishStep]
  · intro htok hmode hdocs
    simp [loopStep, hne, hcmd, handle_query, htok, hmode, hdocs,
      handle_temporary_query, finishStep]

/-- Witness for C1: the free-text line "what is covered" against the initial
(unauthenticated) state and against an authenticated temporary-mode state
with nothing staged. -/
theorem c1_query_guards_witness :
    pyLower (splitFirstSpace (pyStrip "what is covered")).1 ∉ commandNames ∧
    loopStep envFS initState (.line "what is covered") =
      .cont initState [.print .mustLoginQuery] ∧
    loopStep envFS stTemp (.line "what is covered") =
      .cont stTemp [.print .noDocsStaged] :=
  ⟨by decide,
   (c1_query_guards envFS initState "what is covered"
      (by decide) (by decide)).1 rfl,
   (c1_query_guards envFS stTemp "what is covered"
      (by decide) (by decide)).2 rfl rfl rfl⟩

/-! ### C7: file-handle cleanup during upload queries -/

/-- The handle index carried by an open event. -/
def Event.openIdx : Event → Option Nat
  | .openFile i _ => some i
  | _ => none

/-- The handle index carried by a close event. -/
def Event.closeIdx : Event → Option Nat
  | .closeFile i => some i
  | _ => none

/-- Whether an event is an HTTP request. -/
def Event.isHttp : Event → Bool
  | .httpPost _ => true
  | .httpGet _ => true
  | _ => false

/-- The open loop emits exactly the open events for the handles it returns,
no close events and no HTTP events. -/
theorem openAll_opens (env : Env) (paths : List String) :
    ∀ i,
      (openAll env paths i).1.filterMap Event.openIdx =
        (openAll env paths i).2.1 ∧
      (openAll env paths i).1.filterMap Event.closeIdx = [] ∧
      ∀ e ∈ (openAll env paths i).1, e.isHttp = false := by
  induction paths with
  | nil => intro i; simp [openAll]
  | cons p ps ih =>
    intro i
    simp only [openAll]
    split
    · obtain ⟨h1, h2, h3⟩ := ih (i + 1)
      refine ⟨?_, ?_, ?_⟩
      · simp [List.filterMap_cons, Event.openIdx, h1]
      · simp [List.filterMap_cons, Event.closeIdx, h2]
      · intro e he
        rcases List.mem_cons.mp he with rfl | he2
        · rfl
        · exact h3 e he2
    · simp

/-- If the open loop reports no failure, every staged path opened. -/
theorem openAll_err_none (env : Env) (paths : List String) :
    ∀ i, (openAll env paths i).2.2 = none →
      ∀ p ∈ paths, env.openOk p = true := by
  induction paths with
  | nil => intro i _ p hp; simp at hp
  | cons q ps ih =>
    intro i herr p hp
    by_cases hq : env.openOk q
    · rcases List.mem_cons.mp hp with rfl | hp2
      · exact hq
      · refine ih (i + 1) ?_ p hp2
        simpa [openAll, hq] using herr
    · exfalso
      simp [openAll, hq] at herr

/-- The close events of the `finally` block name exactly the given handles. -/
theorem closes_filterMap_closeIdx (hs : List Nat) :
    hs.filterMap (Event.closeIdx ∘ Event.closeFile) = hs := by
  induction hs with
  | nil => rfl
  | cons h t ih => simp [List.filterMap_cons, Event.closeIdx, Function.comp, ih]

/-- The close events of the `finally` block contain no open events. -/
theorem closes_filterMap_openIdx (hs : List Nat) :
    hs.filterMap (Event.openIdx ∘ Event.closeFile) = [] := by
  induction hs with
  | nil => rfl
  | cons h t ih => simp [List.filterMap_cons, Event.openIdx, Function.comp, ih]

/-- Close events are not HTTP events. -/
theorem closes_isHttp (hs : List Nat) :
    ∀ e ∈ hs.map Event.closeFile, e.isHttp = false := by
  intro e he
  rcases List.mem_map.mp he with ⟨j, _, rfl⟩
  rfl

/-- Claim C7: during a Temporary-mode upload query the session state is
unchanged, the sequence of closed handle indices equals the sequence of
opened handle indices on every exit path (success, non-200 response,
transport failure, open failure partway), and when some staged path fails to
open, no request is sent (no HTTP event at all) and the error propagates
after the previously opened handles are closed. -/
theorem c7_upload_handle_cleanup (env : Env) (q : String) (s : AppState) :
    (handle_temporary_query env q s).st = s ∧
    (handle_temporary_query env q s).out.filterMap Event.closeIdx =
      (handle_temporary_query env q s).out.filterMap Event.openIdx ∧
    ((∃ p ∈ s.temp_docs_to_upload, env.openOk p = false) →
      (∀ e ∈ (handle_temporary_query env q s).out, e.isHttp = false) ∧
      ∃ p, (handle_temporary_query env q s).exc = some (.osError p)) := by
  by_cases hempty : s.temp_docs_to_upload = []
  · refine ⟨by simp [handle_temporary_query, hempty],
      by simp [handle_temporary_query, hempty, List.filterMap_cons,
        Event.closeIdx, Event.openIdx], ?_⟩
    rintro ⟨p, hp, -⟩
    rw [hempty] at hp
    simp at hp
  · rcases hOA : openAll env s.temp_docs_to_upload 0 with ⟨openEvs, rest⟩
    rcases rest with ⟨handles, err⟩
    have hspec := openAll_opens env s.temp_docs_to_upload 0
    rw [hOA] at hspec
    obtain ⟨h1, h2, h3⟩ := hspec
    have herrN := openAll_err_none env s.temp_docs_to_upload 0
    rw [hOA] at herrN
    rcases err with _ | p
    · have hnofail : ∀ p ∈ s.temp_docs_to_upload, env.openOk p = true :=
        herrN rfl
      have hcontra : ¬∃ p ∈ s.temp_docs_to_upload, env.openOk p = false := by
        rintro ⟨p, hp, hfalse⟩
        rw [hnofail p hp] at hfalse
        exact Bool.noConfusion hfalse
      cases hnet : env.net with
      | connError =>
        refine ⟨?_, ?_, fun hq2 => absurd hq2 hcontra⟩ <;>
          simp [handle_temporary_query, hempty, hOA, hnet,
            List.filterMap_append, List.filterMap_cons, Event.closeIdx,
            Event.openIdx, h1, h2, closes_filterMap_closeIdx,
            closes_filterMap_openIdx]
      | resp r =>
        by_cases hst : r.status = 200 <;>
          refine ⟨?_, ?_, fun hq2 => absurd hq2 hcontra⟩ <;>
          simp [handle_temporary_query, hempty, hOA, hnet, hst,
            List.filterMap_append, List.filterMap_cons, Event.closeIdx,
            Event.openIdx, h1, h2, closes_filterMap_closeIdx,
            closes_filterMap_openIdx]
    · refine ⟨by simp [handle_temporary_query, hempty, hOA], ?_, fun _ => ⟨?_, p, ?_⟩⟩
      · simp [handle_temporary_query, hempty, hOA, List.filterMap_append,
          h1, h2, closes_filterMap_closeIdx, closes_filterMap_openIdx]
      · intro e he
        simp only [handle_temporary_query, if_neg hempty, hOA] at he
        rcases List.mem_append.mp he with h | h
        · exact h3 e h
        · exact closes_isHttp handles e h
      · simp [handle_temporary_query, hempty, hOA]

/-- Witness for C7: two staged files where the second fails to open: the one
opened handle is closed, no request is sent, and the OSError propagates. -/
theorem c7_upload_handle_cleanup_witness :
    (∃ p ∈ stTempTwo.temp_docs_to_upload, envFS.openOk p = false) ∧
    (∀ e ∈ (handle_temporary_query envFS "q" stTempTwo).out,
      e.isHttp = false) ∧
    (∃ p, (handle_temporary_query envFS "q" stTempTwo).exc =
      some (.osError p)) ∧
    (handle_temporary_query envFS "q" stTempTwo).out.filterMap
        Event.closeIdx =
      (handle_temporary_query envFS "q" stTempTwo).out.filterMap
        Event.openIdx := by
  have h := c7_upload_handle_cleanup envFS "q" stTempTwo
  have hex : ∃ p ∈ stTempTwo.temp_docs_to_upload, envFS.openOk p = false :=
    ⟨"/b.pdf", by decide, by decide⟩
  exact ⟨hex, (h.2.2 hex).1, (h.2.2 hex).2, h.2.1⟩

/-! ### C8 and C9: uncaught exceptions in the REPL loop -/

/-- Claim C8 is violated in the code: `handle_register` and
`handle_list_docs` do not wrap their HTTP calls in any `try`, so with the
backend unreachable, `register` and `list_docs` let the
`RequestException` escape the loop (abnormal termination, no
connection-error message), while the same transport failure during a
persistent free-text query or `login` is caught and reported as the distinct
generic connectivity failure with the loop continuing. -/
theorem c8_transport_failure :
    loopStep envFS stPers (.line "register") =
      .crashed stPers [.httpPost "/register"] .requestException ∧
    loopStep envFS stPers (.line "list_docs") =
      .crashed stPers [.httpGet "/documents"] .requestException ∧
    loopStep envFS stPers (.line "what is the waiting period") =
      .cont stPers [.httpPost "/evaluate", .print .connectionError] ∧
    loopStep envFS stPers (.line "login") =
      .cont stPers [.httpPost "/login", .print .connectionError] := by
  decide

/-- Claim C9 is violated in the code: a staged file missing at upload time
raises an `OSError` that `except RequestException` does not catch, and a
malformed (unclosed-quote) argument to `add_doc` raises an uncaught
`ValueError`; both escape `main`s `except (KeyboardInterrupt, EOFError,
SystemExit)` and terminate the process abnormally instead of being reported
inline. Graceful paths for contrast: `exit` and an interrupt both end the
loop with the shutdown message. -/
theorem c9_fatal_errors :
    loopStep envOpenFail stTempStaged (.line "what does the policy say") =
      .crashed stTempStaged [] (.osError "/gone.pdf") ∧
    loopStep envOpenFail stTempStaged (.line "add_doc \"x") =
      .crashed stTempStaged [] .valueError ∧
    loopStep envOpenFail stTempStaged (.line "exit") =
      .exited stTempStaged [.print .exiting] ∧
    loopStep envOpenFail stTempStaged .interrupt =
      .exited stTempStaged [.print .exiting] := by
  decide

/-! ### C10: the collection of the non-current mode is empty -/

/-- The cross-mode emptiness invariant of the session state. -/
def modeInv (s : AppState) : Prop :=
  (s.mode = "persistent" → s.temp_docs_to_upload = []) ∧
  (s.mode = "temporary" → s.persistent_docs_context = [])

/-- Handler `handle_register` never mutates the session. -/
theorem handle_register_st (env : Env) (a : String) (s : AppState) :
    (handle_register env a s).st = s := by
  unfold handle_register
  repeat' split
  all_goals rfl

/-- Handler `handle_list_docs` never mutates the session. -/
theorem handle_list_docs_st (env : Env) (a : String) (s : AppState) :
    (handle_list_docs env a s).st = s := by
  unfold handle_list_docs
  repeat' split
  all_goals rfl

/-- Handler `handle_show_docs` never mutates the session. -/
theorem handle_show_docs_st (a : String) (s : AppState) :
    (handle_show_docs a s).st = s := by
  simp only [handle_show_docs]
  repeat' split
  all_goals rfl

/-- Handler `handle_persistent_query` never mutates the session. -/
theorem handle_persistent_query_st (env : Env) (q : String) (s : AppState) :
    (handle_persistent_query env q s).st = s := by
  unfold handle_persistent_query
  repeat' split
  all_goals rfl

/-- Handler `handle_temporary_query` never mutates the session. -/
theorem handle_temporary_query_st (env : Env) (q : String) (s : AppState) :
    (handle_temporary_query env q s).st = s := by
  unfold handle_temporary_query
  repeat' split
  all_goals rfl

/-- Handler `handle_query` never mutates the session. -/
theorem handle_query_st (env : Env) (q : String) (s : AppState) :
    (handle_query env q s).st = s := by
  unfold handle_query
  split
  · rfl
  · split
    · exact handle_persistent_query_st env _ s
    · exact handle_temporary_query_st env _ s

/-- Mode switching establishes the invariant outright (it clears both
collections) and preserves it on rejection. -/
theorem modeInv_mode_switch (a : String) (s : AppState) (h : modeInv s) :
    modeInv (handle_mode_switch a s).st := by
  simp only [handle_mode_switch]
  split
  · exact ⟨fun _ => rfl, fun _ => rfl⟩
  · exact h

/-- Handler `handle_login` touches only `token` and `user_email`. -/
theorem modeInv_login (env : Env) (a : String) (s : AppState)
    (h : modeInv s) : modeInv (handle_login env a s).st := by
  cases hn : env.net with
  | connError => simp only [handle_login, hn]; exact h
  | resp r =>
    by_cases hs : r.status = 200 <;>
      simp only [handle_login, hn, hs, if_true, if_false, reduceIte] <;>
      exact h

/-- Handler `handle_set_docs` writes `persistent_docs_context` only in persistent
mode, so the invariant survives. -/
theorem modeInv_set_docs (a : String) (s : AppState) (h : modeInv s) :
    modeInv (handle_set_docs a s).st := by
  by_cases hm : s.mode = "persistent"
  · by_cases he : a = "" ∨ pyStrip a = "*"
    · simp only [handle_set_docs, hm, he, ne_eq, not_true_eq_false,
        if_false, if_true, reduceIte]
      exact ⟨fun _ => h.1 hm, fun hmt => by simp [hm] at hmt⟩
    · rcases hsp : shlexSplit a with e | toks <;>
        simp only [handle_set_docs, hm, he, hsp, ne_eq, not_true_eq_false,
          if_false, if_true, reduceIte]
      · exact h
      · exact ⟨fun _ => h.1 hm, fun hmt => by simp [hm] at hmt⟩
  · simp only [handle_set_docs, ne_eq, hm, not_false_eq_true, if_true,
      reduceIte]
    exact h

/-- Handler `handle_add_doc` writes `temp_docs_to_upload` only in temporary mode, so
the invariant survives. -/
theorem modeInv_add_doc (env : Env) (a : String) (s : AppState)
    (h : modeInv s) : modeInv (handle_add_doc env a s).st := by
  by_cases hm : s.mode = "temporary"
  · by_cases he : a = ""
    · simp only [handle_add_doc, hm, he, ne_eq, not_true_eq_false, if_false,
        if_true, reduceIte]
      exact h
    · rcases hsp : shlexSplit a with e | files <;>
        simp only [handle_add_doc, hm, he, hsp, ne_eq, not_true_eq_false,
          if_false, if_true, reduceIte]
      · exact h
      · exact ⟨fun hmp => by simp [hm] at hmp, fun _ => h.2 hm⟩
  · simp only [handle_add_doc, ne_eq, hm, not_false_eq_true, if_true,
      reduceIte]
    exact h

/-- Handler `handle_clear_docs` empties the collection of the current mode;
the other one is untouched, so the invariant survives. -/
theorem modeInv_clear_docs (a : String) (s : AppState) (h : modeInv s) :
    modeInv (handle_clear_docs a s).st := by
  unfold handle_clear_docs
  split
  · exact ⟨fun hmp => h.1 hmp, fun _ => rfl⟩
  · exact ⟨fun _ => rfl, fun hmt => h.2 hmt⟩

set_option maxHeartbeats 1600000 in
/-- Every registered command preserves the cross-mode emptiness invariant. -/
theorem modeInv_runCommand (env : Env) (cmd args : String) (s : AppState)
    (h : modeInv s) : modeInv (runCommand env cmd args s).st := by
  unfold runCommand
  split_ifs
  · exact h
  · exact modeInv_mode_switch args s h
  · rw [handle_register_st]; exact h
  · exact modeInv_login env args s h
  · exact ⟨fun _ => rfl, fun _ => rfl⟩
  · rw [handle_list_docs_st]; exact h
  · exact modeInv_set_docs args s h
  · exact modeInv_add_doc env args s h
  · rw [handle_show_docs_st]; exact h
  · exact modeInv_clear_docs args s h
  · exact h

/-- The state left by the try/except wrapper is the state of the handler result. -/
theorem finishStep_state (r : HandlerResult) : (finishStep r).state = r.st := by
  rcases r with ⟨st, out, exc⟩
  rcases exc with _ | e
  · rfl
  · cases e <;> rfl

/-- One REPL iteration preserves the cross-mode emptiness invariant. -/
theorem modeInv_loopStep (env : Env) (inp : InputEvent) (s : AppState)
    (h : modeInv s) : modeInv (loopStep env s inp).state := by
  cases inp with
  | interrupt => exact h
  | line raw =>
    simp only [loopStep]
    split
    · exact h
    · split
      · rw [finishStep_state]
        exact modeInv_runCommand env _ _ s h
      · rw [finishStep_state, handle_query_st]
        exact h

/-- Claim C10: in every session state reachable from the initial state by
REPL iterations (under arbitrary environments and inputs), the document
collection of the non-current mode is empty: in Persistent mode
`tempDocsToUpload` is empty, in Temporary mode `persistentDocsContext` is
empty. -/
theorem c10_cross_mode_empty (s : AppState) (h : Reachable s) :
    (s.mode = "persistent" → s.temp_docs_to_upload = []) ∧
    (s.mode = "temporary" → s.persistent_docs_context = []) := by
  induction h with
  | init => exact ⟨fun _ => rfl, fun hc => absurd hc (by decide)⟩
  | step env inp hs ih => exact modeInv_loopStep env inp _ ih

/-- Witness for C10 at a concrete reachable state: the initial state itself,
where the non-current (temporary) collection is empty. -/
theorem c10_cross_mode_empty_witness :
    Reachable initState ∧
    ((initState.mode = "persistent" → initState.temp_docs_to_upload = []) ∧
     (initState.mode = "temporary" →
       initState.persistent_docs_context = [])) :=
  ⟨Reachable.init, c10_cross_mode_empty initState Reachable.init⟩

end ClauseCompass
